import Mathlib

/-!
Verification of the contract-oversight scoring engine
(`src/scoring_engine.py`) and the procurement benchmarking engine
(`src/benchmarking.py`).

Python records (dicts) are embedded as association lists from string keys
to a `Value` type covering the field values the engine manipulates
(`None`, numbers, strings, booleans).  Python numbers (ints and floats)
are embedded as rationals; a raised exception is embedded as
`Except.error`.  `datetime.now()` is passed in explicitly as a rational
day number `now`.
-/

/-- Embedding of a Python value as stored in a contract/milestone dict:
`None`, a number (int/float as an exact rational), a string, or a bool. -/
inductive Value where
  | vnone
  | num (q : ℚ)
  | str (s : String)
  | bool (b : Bool)
deriving DecidableEq, Repr

/-- Embedding of a Python dict with string keys (a contract, milestone or
alert-payload record) as an association list; keys are unique. -/
abbrev Record := List (String × Value)

/-- Lookup in an association list with string keys (`d[k]` / `d.get(k)`). -/
def dictGet {α : Type} : List (String × α) → String → Option α
  | [], _ => none
  | (k', v) :: rest, k => if k' = k then some v else dictGet rest k

/-- Assignment `d[k] = v` on a dict: replaces the binding in place if the
key exists, else appends it (Python dicts keep insertion order). -/
def setK : Record → String → Value → Record
  | [], k, v => [(k, v)]
  | (k', v') :: rest, k, v =>
      if k' = k then (k, v) :: rest else (k', v') :: setK rest k v

/-- Python `d.get(k, default)`. -/
def getD (c : Record) (k : String) (d : Value) : Value :=
  (dictGet c k).getD d

/-- Python `d.get(k)` (default `None`). -/
def getV (c : Record) (k : String) : Value :=
  (dictGet c k).getD .vnone

/-- Python truthiness of an embedded value. -/
def Value.truthy : Value → Bool
  | .vnone => false
  | .num q => q ≠ 0
  | .str s => s ≠ ""
  | .bool b => b

/-- Python `a or b`: `a` if truthy, else `b`. -/
def Value.orElse (a b : Value) : Value :=
  if a.truthy then a else b

/-- Using a value as a number in Python arithmetic/comparison: numbers and
bools succeed (`True == 1`, `False == 0`), `None` and strings raise
`TypeError`. -/
def toNumE : Value → Except String ℚ
  | .num q => .ok q
  | .bool b => .ok (if b then 1 else 0)
  | .vnone => .error "TypeError"
  | .str _ => .error "TypeError"

/-- Python `==` comparison of an embedded value with a string literal
(non-strings compare unequal, never raise). -/
def valEqStr (v : Value) (t : String) : Bool :=
  match v with
  | .str s => s = t
  | _ => false

@[simp] theorem except_ok_bind {ε α β : Type} (a : α) (g : α → Except ε β) :
    (Except.ok a >>= g) = g a := rfl

@[simp] theorem except_error_bind {ε α β : Type} (e : ε) (g : α → Except ε β) :
    (Except.error e >>= g : Except ε β) = Except.error e := rfl

@[simp] theorem except_pure_eq {ε α : Type} (a : α) :
    (pure a : Except ε α) = Except.ok a := rfl

/-- Python `round(x)` to an integer: round-half-to-even (banker's
rounding), as used by `round` and by `format(x, '.0f')`. -/
def roundHalfEven (q : ℚ) : ℤ :=
  let n := ⌊q⌋
  let r := q - n
  if r < 1/2 then n
  else if 1/2 < r then n + 1
  else if n % 2 = 0 then n else n + 1

/-- Python `round(x, 1)`. -/
def round1 (q : ℚ) : ℚ := (roundHalfEven (q * 10) : ℚ) / 10

/-- Python `round(x, 2)`. -/
def round2 (q : ℚ) : ℚ := (roundHalfEven (q * 100) : ℚ) / 100

/-!  Calendar arithmetic: `datetime.fromisoformat('YYYY-MM-DD')` and
`.days` differences are embedded by mapping a civil date to its day
number (days since 1970-01-01, negative before). -/

/-- Whether a year is a Gregorian leap year. -/
def isLeapYear (y : ℤ) : Bool :=
  y % 4 = 0 && (y % 100 ≠ 0 || y % 400 = 0)

/-- Number of days in a month. -/
def daysInMonth (y m : ℤ) : ℤ :=
  if m = 2 then (if isLeapYear y then 29 else 28)
  else if m = 4 ∨ m = 6 ∨ m = 9 ∨ m = 11 then 30
  else 31

/-- Day number of a civil date (days since 1970-01-01; standard
days-from-civil computation for the proleptic Gregorian calendar). -/
def daysFromCivil (y m d : ℤ) : ℤ :=
  let y' := if m ≤ 2 then y - 1 else y
  let era := Int.fdiv y' 400
  let yoe := y' - era * 400
  let mp := (m + 9) % 12
  let doy := (153 * mp + 2) / 5 + d - 1
  let doe := yoe * 365 + yoe / 4 - yoe / 100 + doy
  era * 146097 + doe - 719468

/-- Numeric value of a decimal digit character. -/
def digitVal (ch : Char) : ℤ := (ch.toNat - '0'.toNat : ℕ)

/-- Embedding of `datetime.fromisoformat` applied to the first 10
characters of a string: parses `YYYY-MM-DD` into a day number, `none` for
a raised `ValueError`.  (CPython also accepts some alternative spellings
such as `YYYYMMDD`; the engine only ever stores dashed ISO dates, and
every other input is treated as a parse failure here.) -/
def parseDate (s : String) : Option ℤ :=
  match s.data with
  | [y1, y2, y3, y4, s1, m1, m2, s2, d1, d2] =>
      if y1.isDigit && y2.isDigit && y3.isDigit && y4.isDigit &&
         s1 = '-' && m1.isDigit && m2.isDigit &&
         s2 = '-' && d1.isDigit && d2.isDigit then
        let y := 1000 * digitVal y1 + 100 * digitVal y2 + 10 * digitVal y3 + digitVal y4
        let m := 10 * digitVal m1 + digitVal m2
        let d := 10 * digitVal d1 + digitVal d2
        if 1 ≤ y && 1 ≤ m && m ≤ 12 && 1 ≤ d && d ≤ daysInMonth y m then
          some (daysFromCivil y m d)
        else none
      else none
  | _ => none

/-- Embedding of `datetime.fromisoformat` applied to the first 19
characters of a timestamp: `YYYY-MM-DD[ T]HH:MM:SS` or a bare date, as a
rational day number with the time of day as the fractional part; `none`
for a parse failure. -/
def parseDateTime (s : String) : Option ℚ :=
  match parseDate (s.take 10) with
  | none => none
  | some day =>
      let rest := (s.drop 10).data
      match rest with
      | [] => some (day : ℚ)
      | sep :: h1 :: h2 :: c1 :: mi1 :: mi2 :: c2 :: se1 :: se2 :: [] =>
          if (sep = 'T' || sep = ' ') && h1.isDigit && h2.isDigit &&
             c1 = ':' && mi1.isDigit && mi2.isDigit &&
             c2 = ':' && se1.isDigit && se2.isDigit then
            let h := 10 * digitVal h1 + digitVal h2
            let mi := 10 * digitVal mi1 + digitVal mi2
            let se := 10 * digitVal se1 + digitVal se2
            if h ≤ 23 && mi ≤ 59 && se ≤ 59 then
              some ((day : ℚ) + (h * 3600 + mi * 60 + se : ℤ) / 86400)
            else none
          else none
      | _ => none

/-- Python `str(v)` as used before date parsing.  Numbers never render as
a parseable ISO date, so their exact rendering is irrelevant; `None`
renders as "None". -/
def pyStr : Value → String
  | .vnone => "None"
  | .str s => s
  | .bool b => if b then "True" else "False"
  | .num q => toString q.num ++ "#" ++ toString q.den

/-!  ContractScoringEngine (`src/scoring_engine.py` lines 15-251). -/

/-- Score weights for overall health (`self.health_weights`). -/
def health_weights : List (String × ℚ) :=
  [("cost_variance", 30/100), ("schedule_variance", 25/100),
   ("performance", 25/100), ("compliance", 20/100)]

/-- Risk thresholds (`self.risk_thresholds`). -/
def risk_thresholds : List (String × ℚ) :=
  [("critical", 30), ("high", 50), ("medium", 70), ("low", 100)]

/-- The numeric fetch `contract.get(k, 0) or 0` followed by use in
arithmetic, as done for the monetary fields. -/
def getNum0 (c : Record) (k : String) : Except String ℚ :=
  toNumE ((getD c k (.num 0)).orElse (.num 0))

/-- ContractScoringEngine.calculate_cost_variance_score (lines 35-64).
An `Except.error` models a `TypeError` raised on a non-numeric field. -/
def calculate_cost_variance_score (contract : Record) : Except String ℚ := do
  let original ← getNum0 contract "original_amount"
  if original ≤ 0 then
    return 50  -- No baseline
  else do
    let current ← getNum0 contract "current_amount"
    let variance_pct := (current - original) / original * 100
    if variance_pct ≤ 0 then return 100  -- Under budget
    else if variance_pct ≤ 5 then return 95
    else if variance_pct ≤ 10 then return 85
    else if variance_pct ≤ 15 then return 70
    else if variance_pct ≤ 20 then return 55
    else if variance_pct ≤ 30 then return 40
    else return max 20 (40 - (variance_pct - 30))

/-- Body of calculate_schedule_variance_score as a function of the three
fetched date fields. -/
def schedule_variance_from (original_end current_end start_date : Value) : ℚ :=
  if !original_end.truthy || !start_date.truthy then 50  -- No baseline
  else
    match parseDate ((pyStr original_end).take 10),
          parseDate ((pyStr (current_end.orElse original_end)).take 10),
          parseDate ((pyStr start_date).take 10) with
    | some original_end_dt, some current_end_dt, some start_dt =>
        let original_duration := original_end_dt - start_dt
        if original_duration ≤ 0 then 50
        else
          let extension_days := current_end_dt - original_end_dt
          let extension_pct := (extension_days : ℚ) / (original_duration : ℚ) * 100
          if extension_pct ≤ 0 then 100  -- On or ahead of schedule
          else if extension_pct ≤ 5 then 90
          else if extension_pct ≤ 10 then 80
          else if extension_pct ≤ 20 then 65
          else if extension_pct ≤ 30 then 50
          else max 20 (50 - (extension_pct - 30))
    | _, _, _ => 50  -- except (ValueError, TypeError)

/-- ContractScoringEngine.calculate_schedule_variance_score (lines
66-107).  Total: every parse failure is caught and yields 50. -/
def calculate_schedule_variance_score (contract : Record) : ℚ :=
  schedule_variance_from (getV contract "original_end_date")
    (getV contract "current_end_date") (getV contract "start_date")

/-- Classification of the milestone loop in calculate_performance_score
(lines 116-142): returns (completed_on_time, completed_late, overdue). -/
def milestoneTally : List Record → ℤ × ℤ × ℤ
  | [] => (0, 0, 0)
  | m :: rest =>
      let (on_time, late, overdue) := milestoneTally rest
      if valEqStr (getD m "status" (.str "")) "Completed" then
        if (getV m "due_date").truthy && (getV m "completed_date").truthy then
          match parseDate ((pyStr (getV m "due_date")).take 10),
                parseDate ((pyStr (getV m "completed_date")).take 10) with
          | some due, some completed =>
              if completed ≤ due then (on_time + 1, late, overdue)
              else (on_time, late + 1, overdue)
          | _, _ => (on_time + 1, late, overdue)  -- bare except
        else (on_time + 1, late, overdue)
      else if valEqStr (getD m "status" (.str "")) "Overdue" then
        (on_time, late, overdue + 1)
      else (on_time, late, overdue)

/-- ContractScoringEngine.calculate_performance_score (lines 109-156). -/
def calculate_performance_score (contract : Record) (milestones : List Record) :
    Except String ℚ := do
  let base_score : ℚ :=
    if milestones.isEmpty then 50
    else
      let total : ℚ := milestones.length
      let t := milestoneTally milestones
      let on_time_pct := (t.1 : ℚ) / total * 100
      let late_pct := (t.2.1 : ℚ) / total * 100
      let overdue_pct := (t.2.2 : ℚ) / total * 100
      max 0 (min 100 (on_time_pct - late_pct * (30/100) - overdue_pct * (50/100)))
  let percent_complete ← getNum0 contract "percent_complete"
  return base_score * (70/100) + percent_complete * (30/100)

/-- ContractScoringEngine.calculate_compliance_score (lines 158-185). -/
def calculate_compliance_score (contract : Record) : Except String ℚ := do
  let s0 : ℚ := 100
  let s1 := if (getV contract "requires_insurance").truthy &&
                !(getV contract "insurance_verified").truthy then s0 - 20 else s0
  let s2 := if (getV contract "requires_bond").truthy &&
                !(getV contract "bond_verified").truthy then s1 - 15 else s1
  let s3 ← if (getV contract "award_date").truthy &&
               !(getV contract "board_approval_date").truthy then do
        let amount ← getNum0 contract "current_amount"
        pure (if amount > 50000 then s2 - 25 else s2)
      else pure s2
  let s4 := if (getV contract "is_sole_source").truthy &&
                !(getV contract "justification").truthy then s3 - 15 else s3
  return max 0 s4

/-- ContractScoringEngine.calculate_overall_health (lines 187-202). -/
def calculate_overall_health (contract : Record) (milestones : List Record) :
    Except String ℚ := do
  let cost_score ← calculate_cost_variance_score contract
  let schedule_score := calculate_schedule_variance_score contract
  let performance_score ← calculate_performance_score contract milestones
  let compliance_score ← calculate_compliance_score contract
  let health :=
    cost_score * (dictGet health_weights "cost_variance").getD 0 +
    schedule_score * (dictGet health_weights "schedule_variance").getD 0 +
    performance_score * (dictGet health_weights "performance").getD 0 +
    compliance_score * (dictGet health_weights "compliance").getD 0
  return round1 health

/-- ContractScoringEngine.determine_risk_level (lines 204-213). -/
def determine_risk_level (health_score : ℚ) : String :=
  if health_score < (dictGet risk_thresholds "critical").getD 0 then "Critical"
  else if health_score < (dictGet risk_thresholds "high").getD 0 then "High"
  else if health_score < (dictGet risk_thresholds "medium").getD 0 then "Medium"
  else "Low"

/-- ContractScoringEngine.score_contract (lines 215-224): writes the six
derived fields into the record and returns it.  The final
`determine_risk_level(contract['overall_health_score'])` reads back the
value assigned on the previous line, which is `health`. -/
def score_contract (contract : Record) (milestones : List Record) :
    Except String Record := do
  let cost ← calculate_cost_variance_score contract
  let c1 := setK contract "cost_variance_score" (.num cost)
  let sched := calculate_schedule_variance_score c1
  let c2 := setK c1 "schedule_variance_score" (.num sched)
  let perf ← calculate_performance_score c2 milestones
  let c3 := setK c2 "performance_score" (.num perf)
  let comp ← calculate_compliance_score c3
  let c4 := setK c3 "compliance_score" (.num comp)
  let health ← calculate_overall_health c4 milestones
  let c5 := setK c4 "overall_health_score" (.num health)
  let c6 := setK c5 "risk_level" (.str (determine_risk_level health))
  return c6

/-- The six derived fields written by score_contract. -/
def derivedKeys : List String :=
  ["cost_variance_score", "schedule_variance_score", "performance_score",
   "compliance_score", "overall_health_score", "risk_level"]

theorem dictGet_setK (c : Record) (k k' : String) (v : Value) :
    dictGet (setK c k' v) k = if k' = k then some v else dictGet c k := by
  induction c with
  | nil => simp [setK, dictGet]
  | cons hd tl ih =>
      obtain ⟨hk, hv⟩ := hd
      by_cases h1 : hk = k' <;> by_cases h2 : k' = k <;>
        simp_all [setK, dictGet]

/-!  VendorScoringEngine (`src/scoring_engine.py` lines 254-318). -/

/-- The accumulation loop of calculate_vendor_score (lines 275-281),
returning (weighted_score, total_weight).  The weight is
`contract.get('current_amount', 0) or 1` (so a missing, `None` or zero
amount weighs 1) and the health `contract.get('overall_health_score', 50)`;
a non-numeric value raises (`Except.error`) just as `health * amount`
would in Python. -/
def vendorAccum : List Record → Except String (ℚ × ℚ)
  | [] => .ok (0, 0)
  | contract :: rest => do
      let amount ← toNumE ((getD contract "current_amount" (.num 0)).orElse (.num 1))
      let health ← toNumE (getD contract "overall_health_score" (.num 50))
      let acc ← vendorAccum rest
      return (health * amount + acc.1, amount + acc.2)

/-- VendorScoringEngine.calculate_vendor_score (lines 265-286).  The
`vendor` record itself is unused by the source. -/
def calculate_vendor_score (vendor : Record) (contracts : List Record) :
    Except String ℚ := do
  if contracts.isEmpty then
    return 50  -- No history
  else do
    let acc ← vendorAccum contracts
    if acc.2 > 0 then
      return round1 (acc.1 / acc.2)
    else
      return 50

/-!  AlertGenerator (`src/scoring_engine.py` lines 321-463).  The rule
predicates can raise on malformed fields, so a condition is embedded as
`Record → Except String Bool`; `generate_alerts` catches the error case
per rule per contract. -/

/-- AlertGenerator._cost_overrun (lines 382-388). -/
def cost_overrun (contract : Record) (min_pct max_pct : ℚ) :
    Except String Bool := do
  let original ← getNum0 contract "original_amount"
  if original ≤ 0 then
    return false
  else do
    let current ← getNum0 contract "current_amount"
    let variance_pct := (current - original) / original * 100
    return decide (min_pct ≤ variance_pct) && decide (variance_pct < max_pct)

/-- AlertGenerator._schedule_delay (lines 390-412); total because every
raised error is caught inside and turned into `False`. -/
def schedule_delay (contract : Record) (min_pct max_pct : ℚ) : Bool :=
  let original_end := getV contract "original_end_date"
  let current_end := getV contract "current_end_date"
  let start_date := getV contract "start_date"
  if !original_end.truthy || !start_date.truthy then false
  else
    match parseDate ((pyStr original_end).take 10),
          parseDate ((pyStr (current_end.orElse original_end)).take 10),
          parseDate ((pyStr start_date).take 10) with
    | some original_end_dt, some current_end_dt, some start_dt =>
        let original_duration := original_end_dt - start_dt
        if original_duration ≤ 0 then false
        else
          let extension_pct :=
            ((current_end_dt - original_end_dt : ℤ) : ℚ) / (original_duration : ℚ) * 100
          decide (min_pct ≤ extension_pct) && decide (extension_pct < max_pct)
    | _, _, _ => false

/-- AlertGenerator._expiring_soon (lines 414-424); `now` is the current
time as a rational day number, `(end_dt - datetime.now()).days` is the
floor of the difference. -/
def expiring_soon (now : ℚ) (contract : Record) (days : ℤ) : Bool :=
  let end_date := (getV contract "current_end_date").orElse
                    (getV contract "original_end_date")
  if !end_date.truthy then false
  else
    match parseDate ((pyStr end_date).take 10) with
    | some end_dt =>
        let days_until := ⌊(end_dt : ℚ) - now⌋
        decide (0 < days_until) && decide (days_until ≤ days)
    | none => false

/-- AlertGenerator._no_recent_activity (lines 426-436). -/
def no_recent_activity (now : ℚ) (contract : Record) (days : ℤ) : Bool :=
  let updated := getV contract "updated_at"
  if !updated.truthy then false
  else
    match parseDateTime ((pyStr updated).take 19) with
    | some updated_dt =>
        let days_since := ⌊now - updated_dt⌋
        decide (days_since > days) && valEqStr (getV contract "status") "Active"
    | none => false

/-- One entry of the AlertGenerator.alert_rules table (lines 325-380). -/
structure AlertRule where
  id : String
  name : String
  severity : String
  condition : Record → Except String Bool

/-- AlertGenerator.alert_rules (lines 325-380).  Conditions that raise
nothing in Python are wrapped in `pure`. -/
def alert_rules (now : ℚ) : List AlertRule :=
  [{ id := "cost_overrun_warning", name := "Cost Overrun Warning",
     severity := "High", condition := fun c => cost_overrun c 10 20 },
   { id := "cost_overrun_critical", name := "Critical Cost Overrun",
     severity := "Critical", condition := fun c => cost_overrun c 20 100 },
   { id := "schedule_delay_warning", name := "Schedule Delay Warning",
     severity := "Medium", condition := fun c => pure (schedule_delay c 10 20) },
   { id := "schedule_delay_critical", name := "Critical Schedule Delay",
     severity := "High", condition := fun c => pure (schedule_delay c 20 100) },
   { id := "expiring_soon", name := "Contract Expiring Soon",
     severity := "Medium", condition := fun c => pure (expiring_soon now c 30) },
   { id := "insurance_expired", name := "Insurance Not Verified",
     severity := "High",
     condition := fun c => pure ((getV c "requires_insurance").truthy &&
                                 !(getV c "insurance_verified").truthy) },
   { id := "low_health_score", name := "Low Health Score",
     severity := "High",
     condition := fun c => do
       let h ← toNumE ((getD c "overall_health_score" (.num 100)).orElse (.num 100))
       return decide (h < 50) },
   { id := "multiple_change_orders", name := "Excessive Change Orders",
     severity := "Medium",
     condition := fun c => do
       let n ← toNumE ((getD c "change_order_count" (.num 0)).orElse (.num 0))
       return decide (n ≥ 3) },
   { id := "no_activity", name := "No Recent Activity",
     severity := "Low", condition := fun c => pure (no_recent_activity now c 60) }]

/-- An alert entry as built in generate_alerts (lines 446-455);
`generated_at` carries the `datetime.now()` timestamp. -/
structure Alert where
  alert_id : String
  contract_id : Value
  contract_title : Value
  vendor_name : Value
  alert_type : String
  title : String
  severity : String
  generated_at : ℚ
deriving DecidableEq, Repr

/-- The alert dict built for one matching rule (lines 446-455). -/
def mkAlert (now : ℚ) (contract : Record) (rule : AlertRule) : Alert :=
  { alert_id := pyStr (getV contract "contract_id") ++ "_" ++ rule.id
    contract_id := getV contract "contract_id"
    contract_title := getV contract "title"
    vendor_name := getV contract "vendor_name"
    alert_type := rule.id
    title := rule.name
    severity := rule.severity
    generated_at := now }

/-- The collection loop of generate_alerts (lines 440-457): for each
contract, each rule whose condition evaluates to `True` appends an alert;
a raised error (`Except.error`) is caught and logged, contributing
nothing. -/
def collect_alerts (now : ℚ) (contracts : List Record) : List Alert :=
  contracts.flatMap (fun contract =>
    (alert_rules now).filterMap (fun rule =>
      match rule.condition contract with
      | .ok true => some (mkAlert now contract rule)
      | .ok false => none
      | .error _ => none))

/-- Severity rank used for the final sort (line 460):
`severity_order.get(a['severity'], 4)`. -/
def severityRank (a : Alert) : ℤ :=
  (dictGet [("Critical", (0 : ℤ)), ("High", 1), ("Medium", 2), ("Low", 3)]
    a.severity).getD 4

/-- Stable insertion into a rank-sorted alert list: the new element goes
before the first strictly greater rank (and hence after existing equal
ranks). -/
def insertAlert (x : Alert) : List Alert → List Alert
  | [] => [x]
  | y :: ys =>
      if severityRank x ≤ severityRank y then x :: y :: ys
      else y :: insertAlert x ys

/-- Stable sort by severity rank, modelling `alerts.sort(key=...)`
(Python's sort is stable; a stable sort's output is unique, so insertion
sort is a faithful model). -/
def sortAlerts : List Alert → List Alert
  | [] => []
  | x :: xs => insertAlert x (sortAlerts xs)

/-- AlertGenerator.generate_alerts (lines 438-463). -/
def generate_alerts (now : ℚ) (contracts : List Record) : List Alert :=
  sortAlerts (collect_alerts now contracts)

/-!  BenchmarkingEngine (`src/benchmarking.py`). -/

/-- BENCHMARK_CATEGORIES (`src/benchmarking.py` lines 22-31), in dict
insertion order. -/
def BENCHMARK_CATEGORIES : List (String × String) :=
  [("spend_analysis", "Spend Analysis"),
   ("supplier_management", "Supplier Risk & Performance Management"),
   ("source_to_contract", "Source-to-Contract"),
   ("procurement", "Procurement"),
   ("cash_liquidity", "Cash & Liquidity Management"),
   ("e_invoicing", "E-Invoicing"),
   ("expenses", "Expenses"),
   ("payments", "Payments")]

/-- One benchmark definition of the COUPA_BENCHMARKS table (each entry of
the source table carries all seven fields). -/
structure Benchmark where
  name : String
  category : String
  benchmark_value : ℚ
  unit : String
  direction : String
  description : String
  importance : String
deriving DecidableEq, Repr

/-- COUPA_BENCHMARKS (`src/benchmarking.py` lines 34-221), in dict
insertion order.  Descriptions are omitted from this embedding (no
claim depends on them); `description` is set to `""`. -/
def COUPA_BENCHMARKS : List (String × Benchmark) :=
  [("increase_visibility_managed_spend",
    { name := "Increase in Visibility of Managed Spend", category := "spend_analysis",
      benchmark_value := 244/10, unit := "percent", direction := "higher",
      description := "", importance := "high" }),
   ("supplier_info_mgmt_cycle_time",
    { name := "Supplier Information Management Cycle Time", category := "supplier_management",
      benchmark_value := 66/10, unit := "business_hours", direction := "lower",
      description := "", importance := "medium" }),
   ("spend_with_primary_suppliers",
    { name := "Spend with Primary Suppliers", category := "supplier_management",
      benchmark_value := 175/10, unit := "percent", direction := "higher",
      description := "", importance := "medium" }),
   ("contract_mgmt_cycle_time",
    { name := "Contract Management Cycle Time", category := "source_to_contract",
      benchmark_value := 113/10, unit := "business_days", direction := "lower",
      description := "", importance := "high" }),
   ("on_contract_spend",
    { name := "On-Contract Spend", category := "source_to_contract",
      benchmark_value := 811/10, unit := "percent", direction := "higher",
      description := "", importance := "high" }),
   ("structured_spend",
    { name := "Structured Spend", category := "procurement",
      benchmark_value := 553/10, unit := "percent", direction := "higher",
      description := "", importance := "high" }),
   ("pre_approved_spend",
    { name := "Pre-Approved Spend", category := "procurement",
      benchmark_value := 964/10, unit := "percent", direction := "higher",
      description := "", importance := "critical" }),
   ("electronic_po_processing",
    { name := "Electronic PO Processing Rate", category := "procurement",
      benchmark_value := 988/10, unit := "percent", direction := "higher",
      description := "", importance := "medium" }),
   ("requisition_to_order_cycle_time",
    { name := "Requisition-to-Order Cycle Time", category := "procurement",
      benchmark_value := 4, unit := "business_hours", direction := "lower",
      description := "", importance := "high" }),
   ("touchless_cash_reconciliation",
    { name := "Touchless Cash Flow Reconciliation", category := "cash_liquidity",
      benchmark_value := 9997/100, unit := "percent", direction := "higher",
      description := "", importance := "medium" }),
   ("cash_concentration_index",
    { name := "Cash Concentration Index", category := "cash_liquidity",
      benchmark_value := 76, unit := "percent", direction := "higher",
      description := "", importance := "medium" }),
   ("electronic_invoice_processing",
    { name := "Electronic Invoice Processing Rate", category := "e_invoicing",
      benchmark_value := 862/10, unit := "percent", direction := "higher",
      description := "", importance := "high" }),
   ("invoice_approval_cycle_time",
    { name := "Invoice Approval Cycle Time", category := "e_invoicing",
      benchmark_value := 105/10, unit := "business_hours", direction := "lower",
      description := "", importance := "high" }),
   ("first_time_match_rate",
    { name := "First-Time Match Rate", category := "e_invoicing",
      benchmark_value := 971/10, unit := "percent", direction := "higher",
      description := "", importance := "high" }),
   ("expense_report_approval_cycle_time",
    { name := "Expense Report Approval Cycle Time", category := "expenses",
      benchmark_value := 75/10, unit := "business_hours", direction := "lower",
      description := "", importance := "medium" }),
   ("expense_lines_within_policy",
    { name := "Expense Lines Within Policy", category := "expenses",
      benchmark_value := 989/10, unit := "percent", direction := "higher",
      description := "", importance := "high" }),
   ("invoices_paid_digitally",
    { name := "Invoices Paid Digitally", category := "payments",
      benchmark_value := 96, unit := "percent", direction := "higher",
      description := "", importance := "medium" }),
   ("suppliers_using_digital_payments",
    { name := "Suppliers Using Digital Payments", category := "payments",
      benchmark_value := 962/10, unit := "percent", direction := "higher",
      description := "", importance := "medium" }),
   ("payment_batch_approval_cycle_time",
    { name := "Payment Batch Approval Cycle Time", category := "payments",
      benchmark_value := 42/10, unit := "business_hours", direction := "lower",
      description := "", importance := "medium" })]

/-- IMPORTANCE_WEIGHTS (`src/benchmarking.py` lines 224-229). -/
def IMPORTANCE_WEIGHTS : List (String × ℚ) :=
  [("critical", 2), ("high", 3/2), ("medium", 1), ("low", 1/2)]

/-- KPIScore dataclass (`src/benchmarking.py` lines 232-247). -/
structure KPIScore where
  kpi_id : String
  name : String
  category : String
  actual_value : ℚ
  benchmark_value : ℚ
  unit : String
  direction : String
  score : ℚ
  gap : ℚ
  gap_percent : ℚ
  rating : String
  recommendation : String
deriving DecidableEq, Repr

/-- Python `f'{q:.1f}'`: fixed one-decimal formatting with half-even
rounding. -/
def fmt1 (q : ℚ) : String :=
  let r := roundHalfEven (q * 10)
  (if r < 0 then "-" else "") ++ toString (r.natAbs / 10) ++ "." ++ toString (r.natAbs % 10)

/-- Python `f'{q:.0f}'`. -/
def fmt0 (q : ℚ) : String := toString (roundHalfEven q)

/-- Rendering of a benchmark value inside an f-string (`{benchmark}`).
All table values have at most two decimal digits; trailing zeros beyond
the first decimal are trimmed as Python float repr does. -/
def fmtBench (q : ℚ) : String :=
  let r := roundHalfEven (q * 100)
  let sign := if r < 0 then "-" else ""
  let ip := r.natAbs / 100
  let fp := r.natAbs % 100
  if fp % 10 = 0 then sign ++ toString ip ++ "." ++ toString (fp / 10)
  else sign ++ toString ip ++ "." ++ (if fp < 10 then "0" else "") ++ toString fp

/-- Python `'cycle_time' in s` (substring containment). -/
def hasSub (s sub : String) : Bool := (s.splitOn sub).length > 1

/-- BenchmarkingEngine._generate_recommendation (lines 338-355). -/
def generate_recommendation (kpi_id : String) (kpi : Benchmark)
    (actual benchmark : ℚ) (direction rating : String) : String :=
  if rating = "Excellent" ∨ rating = "Good" then
    "Maintain current performance. Consider documenting best practices."
  else if direction = "higher" then
    let gap := benchmark - actual
    if hasSub kpi_id.toLower "cycle_time" then
      "Reduce " ++ kpi.name ++ " by " ++ fmt1 gap ++ " " ++
        (kpi.unit.replace "_" " ") ++ " to meet benchmark."
    else
      "Increase " ++ kpi.name ++ " by " ++ fmt1 gap ++
        "% to reach the industry benchmark of " ++ fmtBench benchmark ++ "%."
  else
    let gap := actual - benchmark
    "Reduce " ++ kpi.name ++ " by " ++ fmt1 gap ++ " " ++
      (kpi.unit.replace "_" " ") ++ " to meet industry best practices."

/-- The body of BenchmarkingEngine.score_kpi after the table lookup
succeeded (lines 286-336); pure, never raises. -/
def score_kpi_found (kpi_id : String) (kpi : Benchmark) (actual_value : ℚ) :
    KPIScore :=
  let benchmark := kpi.benchmark_value
  let direction := kpi.direction
  let gap := if direction = "higher" then actual_value - benchmark
             else benchmark - actual_value
  let gap_percent := if benchmark > 0 then gap / benchmark * 100 else 0
  let score :=
    if direction = "higher" then
      if actual_value ≥ benchmark then min 100 (100 + gap_percent * (1/10))
      else max 0 (actual_value / benchmark * 100)
    else
      if actual_value ≤ benchmark then min 100 (100 + gap_percent * (1/10))
      else if actual_value > 0 then max 0 (benchmark / actual_value * 100)
      else 0
  let rating :=
    if score ≥ 90 then "Excellent"
    else if score ≥ 75 then "Good"
    else if score ≥ 60 then "Fair"
    else if score ≥ 40 then "Poor"
    else "Critical"
  { kpi_id := kpi_id
    name := kpi.name
    category := kpi.category
    actual_value := actual_value
    benchmark_value := benchmark
    unit := kpi.unit
    direction := direction
    score := round1 score
    gap := round2 gap
    gap_percent := round1 gap_percent
    rating := rating
    recommendation := generate_recommendation kpi_id kpi actual_value benchmark direction rating }

/-- BenchmarkingEngine.score_kpi (lines 281-336): raises `ValueError`
for an id outside the benchmark table, otherwise returns a KPIScore. -/
def score_kpi (kpi_id : String) (actual_value : ℚ) : Except String KPIScore :=
  match dictGet COUPA_BENCHMARKS kpi_id with
  | none => .error ("Unknown KPI: " ++ kpi_id)
  | some kpi => .ok (score_kpi_found kpi_id kpi actual_value)

/-- CategoryScore dataclass (lines 249-257). -/
structure CategoryScore where
  category_id : String
  category_name : String
  score : ℚ
  kpi_scores : List KPIScore
  strengths : List String
  improvement_areas : List String
deriving DecidableEq, Repr

/-- BenchmarkingEngine.score_category (lines 357-390).  The loop over
`category_kpis` keeps table order; `score_kpi` cannot raise there since
every looped id is a table key, so its successful body is used. -/
def score_category (category_id : String) (kpi_values : List (String × ℚ)) :
    CategoryScore :=
  let category_kpis := COUPA_BENCHMARKS.filter (fun kv => kv.2.category == category_id)
  let scored := category_kpis.filterMap (fun kv =>
      match dictGet kpi_values kv.1 with
      | some actual =>
          some (score_kpi_found kv.1 kv.2 actual,
                (dictGet IMPORTANCE_WEIGHTS kv.2.importance).getD 1)
      | none => none)
  let kpi_scores := scored.map (fun p => p.1)
  let weighted_sum := (scored.map (fun p => p.1.score * p.2)).sum
  let total_weight := (scored.map (fun p => p.2)).sum
  let category_score := if total_weight > 0 then weighted_sum / total_weight else 0
  { category_id := category_id
    category_name := (dictGet BENCHMARK_CATEGORIES category_id).getD category_id
    score := round1 category_score
    kpi_scores := kpi_scores
    strengths := (kpi_scores.filter (fun s =>
        s.rating == "Excellent" || s.rating == "Good")).map (fun s => s.name)
    improvement_areas := (kpi_scores.filter (fun s =>
        s.rating == "Poor" || s.rating == "Critical")).map (fun s => s.name) }

/-- The `peer_data` argument of calculate_health_score: a dict whose only
consulted key is `'scores'`, holding a list of numbers (`none` when the
key is absent). -/
structure PeerDict where
  scores : Option (List ℚ)
deriving DecidableEq, Repr

/-- The peer-comparison result dict of _calculate_peer_comparison
(lines 473-480). -/
structure PeerComparison where
  rank : ℕ
  total_peers : ℕ
  percentile : ℚ
  peer_average : ℚ
  peer_median : ℚ
  vs_average : ℚ
deriving DecidableEq, Repr

/-- Stable descending insertion by value, for `peer_scores.sort(reverse=True)`. -/
def insertQDesc (x : ℚ) : List ℚ → List ℚ
  | [] => [x]
  | y :: ys => if x ≥ y then x :: y :: ys else y :: insertQDesc x ys

/-- Descending sort of the peer score list. -/
def sortQDesc : List ℚ → List ℚ
  | [] => []
  | x :: xs => insertQDesc x (sortQDesc xs)

/-- First index of a value in a list (`list.index`), 0 if absent (the
source only calls it on a list containing the value). -/
def indexOfQ (x : ℚ) : List ℚ → ℕ
  | [] => 0
  | y :: ys => if y = x then 0 else indexOfQ x ys + 1

/-- BenchmarkingEngine._calculate_peer_comparison (lines 463-480).
Python mutates `peer_data['scores']` in place (`append` then
`sort(reverse=True)` on the very list object held by the dict), so the
embedding returns the comparison result together with the final state of
the caller's `peer_data` dict. -/
def calculate_peer_comparison (score : ℚ) (peer_data : PeerDict) :
    Option PeerComparison × PeerDict :=
  let peer_scores := peer_data.scores.getD []
  if peer_scores.isEmpty then (none, peer_data)
  else
    let ps := sortQDesc (peer_scores ++ [score])
    let rank := indexOfQ score ps + 1
    (some { rank := rank
            total_peers := ps.length
            percentile := round1 (((ps.length : ℚ) - rank) / ps.length * 100)
            peer_average := round1 (ps.sum / ps.length)
            peer_median := round1 (ps.getD (ps.length / 2) 0)
            vs_average := round1 (score - ps.sum / ps.length) },
     -- the nonempty branch is only reached when the 'scores' key holds a
     -- nonempty list, which is mutated to the sorted, extended list
     { scores := some ps })

/-- ProcurementHealthScore dataclass (lines 260-270); `peer_comparison`
is `none` for the empty dict `{}`, `calculated_at` carries `now`. -/
structure ProcurementHealthScore where
  overall_score : ℚ
  grade : String
  rating : String
  category_scores : List (String × CategoryScore)
  top_strengths : List String
  priority_improvements : List String
  peer_comparison : Option PeerComparison
  calculated_at : ℚ
deriving DecidableEq, Repr

/-- Stable descending insertion of a KPI score by `.score`, for
`sorted(all_kpi_scores, key=lambda x: x.score, reverse=True)`. -/
def insertKPIDesc (x : KPIScore) : List KPIScore → List KPIScore
  | [] => [x]
  | y :: ys => if x.score ≥ y.score then x :: y :: ys else y :: insertKPIDesc x ys

/-- Stable descending sort of KPI scores by `.score`. -/
def sortKPIDesc : List KPIScore → List KPIScore
  | [] => []
  | x :: xs => insertKPIDesc x (sortKPIDesc xs)

/-- Category weights of calculate_health_score (lines 405-414). -/
def category_weights : List (String × ℚ) :=
  [("spend_analysis", 1), ("supplier_management", 1),
   ("source_to_contract", 3/2), ("procurement", 2),
   ("cash_liquidity", 8/10), ("e_invoicing", 12/10),
   ("expenses", 8/10), ("payments", 1)]

/-- BenchmarkingEngine.calculate_health_score (lines 392-461).  Returns
the health score together with the final state of the caller's
`peer_data` dict (which `_calculate_peer_comparison` mutates). -/
def calculate_health_score (kpi_values : List (String × ℚ))
    (peer_data : Option PeerDict) (now : ℚ) :
    ProcurementHealthScore × Option PeerDict :=
  let category_scores := BENCHMARK_CATEGORIES.map
      (fun kv => (kv.1, score_category kv.1 kpi_values))
  let all_kpi_scores := (category_scores.map (fun p => p.2.kpi_scores)).flatten
  let contributing := category_scores.filter (fun p => !p.2.kpi_scores.isEmpty)
  let weighted_sum := (contributing.map
      (fun p => p.2.score * (dictGet category_weights p.1).getD 1)).sum
  let total_weight := (contributing.map
      (fun p => (dictGet category_weights p.1).getD 1)).sum
  let overall_score := if total_weight > 0 then weighted_sum / total_weight else 0
  let gr : String × String :=
    if overall_score ≥ 90 then ("A", "Excellent")
    else if overall_score ≥ 80 then ("B", "Good")
    else if overall_score ≥ 70 then ("C", "Fair")
    else if overall_score ≥ 60 then ("D", "Poor")
    else ("F", "Critical")
  let sorted_scores := sortKPIDesc all_kpi_scores
  let top_strengths := ((sorted_scores.take 5).filter (fun s =>
      s.rating == "Excellent" || s.rating == "Good")).map
      (fun s => s.name ++ ": " ++ fmt0 s.score ++ "/100")
  let priority_improvements := ((sorted_scores.filter (fun s =>
      s.rating == "Poor" || s.rating == "Critical")).map
      (fun s => s.name ++ ": " ++ s.recommendation)).take 5
  let pc : Option PeerComparison × Option PeerDict :=
    match peer_data with
    | some pd =>
        let r := calculate_peer_comparison overall_score pd
        (r.1, some r.2)
    | none => (none, none)
  ({ overall_score := round1 overall_score
     grade := gr.1
     rating := gr.2
     category_scores := category_scores
     top_strengths := top_strengths
     priority_improvements := priority_improvements
     peer_comparison := pc.1
     calculated_at := now },
   pc.2)

/-!  Helper lemmas about record update and the scoring functions. -/

theorem getD_setK_ne (c : Record) (k k' : String) (v d : Value) (h : k' ≠ k) :
    getD (setK c k' v) k d = getD c k d := by
  simp [getD, dictGet_setK, h]

theorem getV_setK_ne (c : Record) (k k' : String) (v : Value) (h : k' ≠ k) :
    getV (setK c k' v) k = getV c k := by
  simp [getV, dictGet_setK, h]

theorem cost_setK (c : Record) (k' : String) (v : Value) (h : k' ∈ derivedKeys) :
    calculate_cost_variance_score (setK c k' v) = calculate_cost_variance_score c := by
  fin_cases h <;>
    simp [calculate_cost_variance_score, getNum0, getD, dictGet_setK]

theorem schedule_setK (c : Record) (k' : String) (v : Value) (h : k' ∈ derivedKeys) :
    calculate_schedule_variance_score (setK c k' v) = calculate_schedule_variance_score c := by
  fin_cases h <;>
    simp [calculate_schedule_variance_score, getV, dictGet_setK]

theorem performance_setK (c : Record) (ms : List Record) (k' : String) (v : Value)
    (h : k' ∈ derivedKeys) :
    calculate_performance_score (setK c k' v) ms = calculate_performance_score c ms := by
  fin_cases h <;>
    simp [calculate_performance_score, getNum0, getD, dictGet_setK]

theorem compliance_setK (c : Record) (k' : String) (v : Value) (h : k' ∈ derivedKeys) :
    calculate_compliance_score (setK c k' v) = calculate_compliance_score c := by
  fin_cases h <;>
    simp [calculate_compliance_score, getNum0, getD, getV, dictGet_setK]

theorem overall_setK (c : Record) (ms : List Record) (k' : String) (v : Value)
    (h : k' ∈ derivedKeys) :
    calculate_overall_health (setK c k' v) ms = calculate_overall_health c ms := by
  unfold calculate_overall_health
  rw [cost_setK c k' v h, schedule_setK c k' v h, performance_setK c ms k' v h,
    compliance_setK c k' v h]

/-- Example contract of the cost-variance claim. -/
def costExample : Record :=
  [("original_amount", .num 100000), ("current_amount", .num 112000)]

/-- C1: calculate_cost_variance_score returns 50 without a positive
baseline (absent or non-positive original_amount); with a positive
baseline it is the step function of
`variance_pct = (current - original) / original * 100` with bands
100 / 95 / 85 / 70 / 55 / 40 / max 20 (40 - (variance_pct - 30)), and the
example (100000, 112000) scores 70. -/
theorem cost_variance_score_spec (c : Record) :
    (dictGet c "original_amount" = none →
        calculate_cost_variance_score c = .ok 50) ∧
    (∀ o, getNum0 c "original_amount" = .ok o → o ≤ 0 →
        calculate_cost_variance_score c = .ok 50) ∧
    (∀ o cur v, getNum0 c "original_amount" = .ok o →
        getNum0 c "current_amount" = .ok cur →
        v = (cur - o) / o * 100 → 0 < o →
        ((v ≤ 0 → calculate_cost_variance_score c = .ok 100) ∧
         (0 < v → v ≤ 5 → calculate_cost_variance_score c = .ok 95) ∧
         (5 < v → v ≤ 10 → calculate_cost_variance_score c = .ok 85) ∧
         (10 < v → v ≤ 15 → calculate_cost_variance_score c = .ok 70) ∧
         (15 < v → v ≤ 20 → calculate_cost_variance_score c = .ok 55) ∧
         (20 < v → v ≤ 30 → calculate_cost_variance_score c = .ok 40) ∧
         (30 < v → calculate_cost_variance_score c = .ok (max 20 (40 - (v - 30)))))) ∧
    calculate_cost_variance_score costExample = .ok 70 := by
  refine ⟨?_, ?_, ?_, ?_⟩
  · intro h
    simp [calculate_cost_variance_score, getNum0, getD, h, Value.orElse,
      Value.truthy, toNumE]
  · intro o ho hle
    simp only [calculate_cost_variance_score, ho, except_ok_bind]
    rw [if_pos hle]
    rfl
  · intro o cur v ho hc hv hpos
    have hchain : calculate_cost_variance_score c =
        (if v ≤ 0 then Except.ok 100
         else if v ≤ 5 then Except.ok 95
         else if v ≤ 10 then Except.ok 85
         else if v ≤ 15 then Except.ok 70
         else if v ≤ 20 then Except.ok 55
         else if v ≤ 30 then Except.ok 40
         else Except.ok (max 20 (40 - (v - 30)))) := by
      simp only [calculate_cost_variance_score, ho, hc, except_ok_bind]
      rw [if_neg (by linarith), ← hv]
      rfl
    rw [hchain]
    refine ⟨?_, ?_, ?_, ?_, ?_, ?_, ?_⟩ <;> intros <;>
      split_ifs <;> first | rfl | (exfalso; linarith)
  · simp [calculate_cost_variance_score, costExample, getNum0, getD,
      dictGet, Value.orElse, Value.truthy, toNumE]
    norm_num

/-- Witness for C1 at the concrete example contract. -/
theorem cost_variance_score_spec_witness :
    getNum0 costExample "original_amount" = .ok 100000 ∧
    (0 : ℚ) < 100000 ∧
    calculate_cost_variance_score costExample = .ok 70 := by
  have ho : getNum0 costExample "original_amount" = .ok 100000 := by
    simp [costExample, getNum0, getD, dictGet, Value.orElse, Value.truthy, toNumE]
  have hc : getNum0 costExample "current_amount" = .ok 112000 := by
    simp [costExample, getNum0, getD, dictGet, Value.orElse, Value.truthy, toNumE]
  refine ⟨ho, by norm_num, ?_⟩
  have hband := ((cost_variance_score_spec costExample).2.2.1 100000 112000 12
    ho hc (by norm_num) (by norm_num)).2.2.2.1
  exact hband (by norm_num) (by norm_num)

/-- C2: determine_risk_level partitions scores into the four tiers
Critical (< 30), High ([30,50)), Medium ([50,70)), Low (≥ 70), always
yields one of the four, and hits the documented boundary examples. -/
theorem determine_risk_level_spec (s : ℚ) :
    (s < 30 → determine_risk_level s = "Critical") ∧
    (30 ≤ s → s < 50 → determine_risk_level s = "High") ∧
    (50 ≤ s → s < 70 → determine_risk_level s = "Medium") ∧
    (70 ≤ s → determine_risk_level s = "Low") ∧
    (determine_risk_level s = "Critical" ∨ determine_risk_level s = "High" ∨
     determine_risk_level s = "Medium" ∨ determine_risk_level s = "Low") ∧
    determine_risk_level (299/10) = "Critical" ∧
    determine_risk_level 30 = "High" ∧
    determine_risk_level (499/10) = "High" ∧
    determine_risk_level 50 = "Medium" ∧
    determine_risk_level (699/10) = "Medium" ∧
    determine_risk_level 70 = "Low" := by
  have key : ∀ t : ℚ, determine_risk_level t =
      (if t < 30 then "Critical" else if t < 50 then "High"
       else if t < 70 then "Medium" else "Low") := by
    intro t
    simp [determine_risk_level, risk_thresholds, dictGet]
  refine ⟨?_, ?_, ?_, ?_, ?_, ?_, ?_, ?_, ?_, ?_, ?_⟩ <;>
    rw [key] <;> try intros
  · split_ifs <;> first | rfl | (exfalso; linarith)
  · split_ifs <;> first | rfl | (exfalso; linarith)
  · split_ifs <;> first | rfl | (exfalso; linarith)
  · split_ifs <;> first | rfl | (exfalso; linarith)
  · split_ifs <;> simp
  · norm_num
  · norm_num
  · norm_num
  · norm_num
  · norm_num
  · norm_num

/-- Witness for C2 at the boundary score 30. -/
theorem determine_risk_level_spec_witness :
    (30 : ℚ) ≤ 30 ∧ (30 : ℚ) < 50 ∧ determine_risk_level 30 = "High" :=
  ⟨by norm_num, by norm_num,
   (determine_risk_level_spec 30).2.1 (by norm_num) (by norm_num)⟩

/-!  Claim C4: vendor scoring. -/

/-- Numeric reading of a value, for stating what the vendor loop uses
(numbers as themselves, bools as 0/1). -/
def pyNum : Value → ℚ
  | .num q => q
  | .bool b => if b then 1 else 0
  | _ => 0

/-- The weight the vendor loop gives one contract:
`contract.get('current_amount', 0) or 1`. -/
def pyWeight (c : Record) : ℚ :=
  pyNum ((getD c "current_amount" (.num 0)).orElse (.num 1))

/-- The health the vendor loop gives one contract:
`contract.get('overall_health_score', 50)`. -/
def pyHealth (c : Record) : ℚ :=
  pyNum (getD c "overall_health_score" (.num 50))

theorem orElse_one_ne_zero (a : Value) (q : ℚ)
    (h : Value.orElse a (.num 1) = .num q) : q ≠ 0 := by
  cases a with
  | vnone =>
      simp [Value.orElse, Value.truthy] at h
      subst h; norm_num
  | num q' =>
      by_cases hq : q' = 0
      · subst hq
        simp [Value.orElse, Value.truthy] at h
        subst h; norm_num
      · simp [Value.orElse, Value.truthy, hq] at h
        subst h; exact hq
  | str s =>
      by_cases hs : s = ""
      · subst hs
        simp [Value.orElse, Value.truthy] at h
        subst h; norm_num
      · simp [Value.orElse, Value.truthy, hs] at h
  | bool b =>
      cases b <;> simp [Value.orElse, Value.truthy] at h
      subst h; norm_num

theorem vendorAccum_ok (contracts : List Record)
    (hok : ∀ c ∈ contracts,
        (∃ q, (getD c "current_amount" (.num 0)).orElse (.num 1) = .num q) ∧
        (∃ q, getD c "overall_health_score" (.num 50) = .num q)) :
    vendorAccum contracts =
      .ok ((contracts.map (fun c => pyHealth c * pyWeight c)).sum,
           (contracts.map pyWeight).sum) := by
  induction contracts with
  | nil => simp [vendorAccum]
  | cons c rest ih =>
      obtain ⟨⟨w, hw⟩, h', hh⟩ := hok c (by simp)
      have hrest := ih (fun d hd => hok d (by simp [hd]))
      simp [vendorAccum, hrest, hw, hh, toNumE, pyWeight, pyHealth, pyNum]

/-- Counterexample contracts for C4: the first has a present, zero
current_amount. -/
def vendorCx : List Record :=
  [[("current_amount", .num 0), ("overall_health_score", .num 100)],
   [("current_amount", .num 1000), ("overall_health_score", .num 40)]]

/-- C4 counterexample: with contracts [(amount 0, health 100),
(amount 1000, health 40)] the claim's weighted mean (weight =
current_amount, 1 only for missing amounts) is (0·100+1000·40)/1000 = 40,
but the code weighs the zero amount as 1 and returns 40.1. -/
theorem vendor_score_counterexample :
    calculate_vendor_score [] vendorCx = .ok (401/10) ∧
    round1 ((0 * 100 + 1000 * 40) / (0 + 1000) : ℚ) = 40 ∧
    (401/10 : ℚ) ≠ 40 := by
  have hacc : vendorAccum vendorCx = .ok (40100, 1001) := by
    simp [vendorAccum, vendorCx, getD, dictGet, toNumE, Value.orElse, Value.truthy]
    norm_num
  have hfloor : ⌊(40100/1001 : ℚ) * 10⌋ = 400 := by
    rw [Int.floor_eq_iff]
    norm_num
  have hfloor2 : ⌊(40 : ℚ) * 10⌋ = 400 := by
    norm_num
  have hval : round1 ((40100 : ℚ) / 1001) = 401/10 := by
    norm_num [round1, roundHalfEven, hfloor]
  have hemp : vendorCx.isEmpty = false := rfl
  refine ⟨?_, ?_, by norm_num⟩
  · simp [calculate_vendor_score, hemp, hacc, hval]
  · norm_num [round1, roundHalfEven, hfloor2]

/-- C4 amended: calculate_vendor_score returns 50 for an empty contract
list; for a non-empty list whose current_amount fields read back as
nonnegative numbers (or are missing/None, weighing 1; zero also weighs 1)
and whose overall_health_score fields read back as numbers (missing
defaulting to 50), it returns the value-weighted mean of health by
weight, rounded to one decimal. -/
theorem calculate_vendor_score_amended (vendor : Record) (contracts : List Record) :
    calculate_vendor_score vendor [] = .ok 50 ∧
    (contracts ≠ [] →
     (∀ c ∈ contracts,
        (∃ q, (getD c "current_amount" (.num 0)).orElse (.num 1) = .num q ∧ 0 ≤ q) ∧
        (∃ q, getD c "overall_health_score" (.num 50) = .num q)) →
     calculate_vendor_score vendor contracts =
       .ok (round1 ((contracts.map (fun c => pyHealth c * pyWeight c)).sum /
                    (contracts.map pyWeight).sum))) := by
  refine ⟨by simp [calculate_vendor_score], ?_⟩
  intro hne hok
  have hok' : ∀ c ∈ contracts,
      (∃ q, (getD c "current_amount" (.num 0)).orElse (.num 1) = .num q) ∧
      (∃ q, getD c "overall_health_score" (.num 50) = .num q) := by
    intro c hc
    obtain ⟨⟨q, hq, _⟩, hh⟩ := hok c hc
    exact ⟨⟨q, hq⟩, hh⟩
  have hacc := vendorAccum_ok contracts hok'
  have hpos : 0 < (contracts.map pyWeight).sum := by
    apply List.sum_pos
    · intro x hx
      simp only [List.mem_map] at hx
      obtain ⟨c, hc, rfl⟩ := hx
      obtain ⟨⟨q, hq, hq0⟩, _⟩ := hok c hc
      have hwq : pyWeight c = q := by simp [pyWeight, hq, pyNum]
      rw [hwq]
      exact lt_of_le_of_ne hq0 (Ne.symm (orElse_one_ne_zero _ _ hq))
    · simpa using hne
  have hempty : contracts.isEmpty = false := by
    cases contracts with
    | nil => exact absurd rfl hne
    | cons a l => rfl
  simp [calculate_vendor_score, hempty, hacc, hpos]

/-- Witness for the amended C4 at the documented example
[(value 100, health 80), (value 900, health 40)], yielding 44.0. -/
def vendorExample : List Record :=
  [[("current_amount", .num 100), ("overall_health_score", .num 80)],
   [("current_amount", .num 900), ("overall_health_score", .num 40)]]

theorem calculate_vendor_score_amended_witness :
    vendorExample ≠ [] ∧
    calculate_vendor_score [] [] = .ok 50 ∧
    calculate_vendor_score [] vendorExample = .ok 44 := by
  have hok : ∀ c ∈ vendorExample,
      (∃ q, (getD c "current_amount" (.num 0)).orElse (.num 1) = .num q ∧ 0 ≤ q) ∧
      (∃ q, getD c "overall_health_score" (.num 50) = .num q) := by
    intro c hc
    simp [vendorExample] at hc
    rcases hc with rfl | rfl
    · exact ⟨⟨100, by simp [getD, dictGet, Value.orElse, Value.truthy], by norm_num⟩,
        ⟨80, by simp [getD, dictGet]⟩⟩
    · exact ⟨⟨900, by simp [getD, dictGet, Value.orElse, Value.truthy], by norm_num⟩,
        ⟨40, by simp [getD, dictGet]⟩⟩
  have h := (calculate_vendor_score_amended [] vendorExample).2
    (by simp [vendorExample]) hok
  refine ⟨by simp [vendorExample], (calculate_vendor_score_amended [] vendorExample).1, ?_⟩
  rw [h]
  have hsum : ((vendorExample.map (fun c => pyHealth c * pyWeight c)).sum /
      (vendorExample.map pyWeight).sum : ℚ) = 44 := by
    simp [vendorExample, pyHealth, pyWeight, pyNum, getD, dictGet,
      Value.orElse, Value.truthy]
    norm_num
  rw [hsum]
  have hfloor : ⌊(44 : ℚ) * 10⌋ = 440 := by norm_num
  norm_num [round1, roundHalfEven, hfloor]

/-!  Claim C7: the low_health_score alert rule. -/

/-- Contract whose overall_health_score is present and equal to 0. -/
def healthZeroContract : Record := [("overall_health_score", .num 0)]

theorem healthZero_cost10 : cost_overrun healthZeroContract 10 20 = .ok false := by
  simp [cost_overrun, getNum0, getD, dictGet, toNumE, Value.orElse, Value.truthy,
    healthZeroContract]

theorem healthZero_cost20 : cost_overrun healthZeroContract 20 100 = .ok false := by
  simp [cost_overrun, getNum0, getD, dictGet, toNumE, Value.orElse, Value.truthy,
    healthZeroContract]

theorem healthZero_sched (a b : ℚ) : schedule_delay healthZeroContract a b = false := by
  simp [schedule_delay, getV, dictGet, Value.truthy, healthZeroContract]

theorem healthZero_expiring : expiring_soon 0 healthZeroContract 30 = false := by
  simp [expiring_soon, getV, dictGet, Value.truthy, Value.orElse, healthZeroContract]

theorem healthZero_noact : no_recent_activity 0 healthZeroContract 60 = false := by
  simp [no_recent_activity, getV, dictGet, Value.truthy, healthZeroContract]

/-- C7 evaluation at the failing input: a present overall_health_score
of 0 (which is below 50) produces no alert at all, because the rule's
`or 100` treats the falsy 0 like a missing value. -/
theorem low_health_zero_not_alerted :
    dictGet healthZeroContract "overall_health_score" = some (.num 0) ∧
    ((0 : ℚ) < 50) ∧
    generate_alerts 0 [healthZeroContract] = [] := by
  refine ⟨by simp [healthZeroContract, dictGet], by norm_num, ?_⟩
  have hd : decide ((100 : ℚ) < 50) = false := by
    simp only [decide_eq_false_iff_not]
    norm_num
  have hd3 : decide ((0 : ℚ) ≥ 3) = false := by
    simp only [decide_eq_false_iff_not]
    norm_num
  have hcollect : collect_alerts 0 [healthZeroContract] = [] := by
    simp only [collect_alerts, alert_rules, List.flatMap_cons, List.flatMap_nil,
      List.filterMap_cons, List.filterMap_nil]
    rw [healthZero_cost10, healthZero_cost20, healthZero_sched, healthZero_sched,
      healthZero_expiring, healthZero_noact]
    simp [getD, getV, dictGet, toNumE, Value.orElse, Value.truthy,
      healthZeroContract, hd, hd3]
  simp [generate_alerts, hcollect, sortAlerts]

/-!  Claim C8: unknown-KPI behaviour of score_kpi. -/

/-- C8: score_kpi fails (with the "Unknown KPI" ValueError) exactly when
the id is not a key of the benchmark table, and succeeds with a KPIScore
for every table id and numeric actual value; every table benchmark value
is positive (so no internal division can raise either). -/
theorem score_kpi_spec (kpi_id : String) (actual : ℚ) :
    ((∃ e, score_kpi kpi_id actual = .error e) ↔
        dictGet COUPA_BENCHMARKS kpi_id = none) ∧
    ((∃ r, score_kpi kpi_id actual = .ok r) ↔
        (dictGet COUPA_BENCHMARKS kpi_id).isSome) ∧
    (dictGet COUPA_BENCHMARKS kpi_id = none →
        score_kpi kpi_id actual = .error ("Unknown KPI: " ++ kpi_id)) ∧
    (∀ kv ∈ COUPA_BENCHMARKS, 0 < kv.2.benchmark_value) := by
  refine ⟨?_, ?_, ?_, ?_⟩
  · cases h : dictGet COUPA_BENCHMARKS kpi_id <;> simp [score_kpi, h]
  · cases h : dictGet COUPA_BENCHMARKS kpi_id <;> simp [score_kpi, h]
  · intro h; simp [score_kpi, h]
  · intro kv hkv
    fin_cases hkv <;> norm_num

/-- Witness for C8: a concrete unknown id raises, a concrete table id
succeeds. -/
theorem score_kpi_spec_witness :
    dictGet COUPA_BENCHMARKS "not_a_kpi" = none ∧
    score_kpi "not_a_kpi" 5 = .error ("Unknown KPI: " ++ "not_a_kpi") ∧
    (∃ r, score_kpi "on_contract_spend" 75 = .ok r) := by
  have h1 : dictGet COUPA_BENCHMARKS "not_a_kpi" = none := by
    simp [COUPA_BENCHMARKS, dictGet]
  refine ⟨h1, (score_kpi_spec "not_a_kpi" 5).2.2.1 h1, ?_⟩
  exact ((score_kpi_spec "on_contract_spend" 75).2.1).mpr
    (by simp [COUPA_BENCHMARKS, dictGet])

/-!  Claim C9: calculate_health_score mutates peer_data['scores']. -/

theorem filterMap_const_none {α β : Type} (l : List α) :
    l.filterMap (fun _ => (none : Option β)) = [] := by
  induction l <;> simp [List.filterMap_cons, *]

theorem score_category_nil_kpi (cid : String) :
    (score_category cid []).kpi_scores = [] := by
  simp [score_category, dictGet, filterMap_const_none]

/-- C9 evaluation at the failing input: calling calculate_health_score
with no KPI values and `peer_data = {'scores': [80]}` leaves
`peer_data['scores']` as `[80, 0]` (the engine's own score appended, then
sorted descending) — the argument is mutated, not left unchanged. -/
theorem calculate_health_score_mutates_peer_data :
    (calculate_health_score [] (some ⟨some [80]⟩) 0).2 = some ⟨some [80, 0]⟩ ∧
    (⟨some [80, 0]⟩ : PeerDict) ≠ ⟨some [80]⟩ := by
  constructor
  · simp [calculate_health_score, BENCHMARK_CATEGORIES, score_category_nil_kpi,
      calculate_peer_comparison, sortQDesc, insertQDesc]
  · intro h
    simp at h

/-!  Claims C10 and C3: the score_contract write-back and idempotence. -/

/-- The record produced by score_contract: the input with the six derived
fields written (in write order). -/
def scoredStack (c : Record) (cost sched perf comp health : ℚ) : Record :=
  setK (setK (setK (setK (setK (setK c
    "cost_variance_score" (.num cost))
    "schedule_variance_score" (.num sched))
    "performance_score" (.num perf))
    "compliance_score" (.num comp))
    "overall_health_score" (.num health))
    "risk_level" (.str (determine_risk_level health))

theorem score_contract_unfold (c : Record) (ms : List Record) :
    score_contract c ms =
      (do
        let cost ← calculate_cost_variance_score c
        let perf ← calculate_performance_score c ms
        let comp ← calculate_compliance_score c
        let health ← calculate_overall_health c ms
        pure (scoredStack c cost (calculate_schedule_variance_score c) perf comp health)) := by
  unfold score_contract scoredStack
  simp [schedule_setK, performance_setK, compliance_setK, overall_setK, derivedKeys]

theorem score_contract_ok (c : Record) (ms : List Record) (c' : Record)
    (h : score_contract c ms = .ok c') :
    ∃ cost perf comp health,
      calculate_cost_variance_score c = .ok cost ∧
      calculate_performance_score c ms = .ok perf ∧
      calculate_compliance_score c = .ok comp ∧
      calculate_overall_health c ms = .ok health ∧
      c' = scoredStack c cost (calculate_schedule_variance_score c) perf comp health := by
  rw [score_contract_unfold] at h
  cases hcost : calculate_cost_variance_score c <;> rw [hcost] at h
  case error e => exact absurd h (by simp)
  case ok cost =>
  rw [except_ok_bind] at h
  cases hperf : calculate_performance_score c ms <;> rw [hperf] at h
  case error e => exact absurd h (by simp)
  case ok perf =>
  rw [except_ok_bind] at h
  cases hcomp : calculate_compliance_score c <;> rw [hcomp] at h
  case error e => exact absurd h (by simp)
  case ok comp =>
  rw [except_ok_bind] at h
  cases hhealth : calculate_overall_health c ms <;> rw [hhealth] at h
  case error e => exact absurd h (by simp)
  case ok health =>
  rw [except_ok_bind, except_pure_eq] at h
  refine ⟨cost, perf, comp, health, rfl, rfl, rfl, rfl, ?_⟩
  exact (Except.ok.injEq _ _).mp h.symm

theorem cost_scoredStack (c : Record) (a b d e f : ℚ) :
    calculate_cost_variance_score (scoredStack c a b d e f) =
      calculate_cost_variance_score c := by
  unfold scoredStack
  rw [cost_setK _ _ _ (by simp [derivedKeys]), cost_setK _ _ _ (by simp [derivedKeys]),
    cost_setK _ _ _ (by simp [derivedKeys]), cost_setK _ _ _ (by simp [derivedKeys]),
    cost_setK _ _ _ (by simp [derivedKeys]), cost_setK _ _ _ (by simp [derivedKeys])]

theorem schedule_scoredStack (c : Record) (a b d e f : ℚ) :
    calculate_schedule_variance_score (scoredStack c a b d e f) =
      calculate_schedule_variance_score c := by
  unfold scoredStack
  rw [schedule_setK _ _ _ (by simp [derivedKeys]), schedule_setK _ _ _ (by simp [derivedKeys]),
    schedule_setK _ _ _ (by simp [derivedKeys]), schedule_setK _ _ _ (by simp [derivedKeys]),
    schedule_setK _ _ _ (by simp [derivedKeys]), schedule_setK _ _ _ (by simp [derivedKeys])]

theorem performance_scoredStack (c : Record) (ms : List Record) (a b d e f : ℚ) :
    calculate_performance_score (scoredStack c a b d e f) ms =
      calculate_performance_score c ms := by
  unfold scoredStack
  rw [performance_setK _ _ _ _ (by simp [derivedKeys]),
    performance_setK _ _ _ _ (by simp [derivedKeys]),
    performance_setK _ _ _ _ (by simp [derivedKeys]),
    performance_setK _ _ _ _ (by simp [derivedKeys]),
    performance_setK _ _ _ _ (by simp [derivedKeys]),
    performance_setK _ _ _ _ (by simp [derivedKeys])]

theorem compliance_scoredStack (c : Record) (a b d e f : ℚ) :
    calculate_compliance_score (scoredStack c a b d e f) =
      calculate_compliance_score c := by
  unfold scoredStack
  rw [compliance_setK _ _ _ (by simp [derivedKeys]),
    compliance_setK _ _ _ (by simp [derivedKeys]),
    compliance_setK _ _ _ (by simp [derivedKeys]),
    compliance_setK _ _ _ (by simp [derivedKeys]),
    compliance_setK _ _ _ (by simp [derivedKeys]),
    compliance_setK _ _ _ (by simp [derivedKeys])]

theorem overall_scoredStack (c : Record) (ms : List Record) (a b d e f : ℚ) :
    calculate_overall_health (scoredStack c a b d e f) ms =
      calculate_overall_health c ms := by
  unfold calculate_overall_health
  rw [cost_scoredStack, schedule_scoredStack, performance_scoredStack,
    compliance_scoredStack]

theorem dictGet_scoredStack_derived (c : Record) (a b d e f : ℚ) :
    dictGet (scoredStack c a b d e f) "cost_variance_score" = some (.num a) ∧
    dictGet (scoredStack c a b d e f) "schedule_variance_score" = some (.num b) ∧
    dictGet (scoredStack c a b d e f) "performance_score" = some (.num d) ∧
    dictGet (scoredStack c a b d e f) "compliance_score" = some (.num e) ∧
    dictGet (scoredStack c a b d e f) "overall_health_score" = some (.num f) ∧
    dictGet (scoredStack c a b d e f) "risk_level" =
      some (.str (determine_risk_level f)) := by
  unfold scoredStack
  refine ⟨?_, ?_, ?_, ?_, ?_, ?_⟩ <;> simp [dictGet_setK]

/-- C10: when score_contract returns a record, that record agrees with
the input on every key outside the six derived fields (none of those is
added, removed or changed) and carries a value for each of the six
derived fields. -/
theorem score_contract_frame (c : Record) (ms : List Record) (c' : Record)
    (h : score_contract c ms = .ok c') :
    (∀ k, k ∉ derivedKeys → dictGet c' k = dictGet c k) ∧
    (∀ k ∈ derivedKeys, (dictGet c' k).isSome) := by
  obtain ⟨cost, perf, comp, health, _, _, _, _, rfl⟩ := score_contract_ok c ms c' h
  constructor
  · intro k hk
    simp only [derivedKeys, List.mem_cons, List.not_mem_nil, or_false] at hk
    push_neg at hk
    obtain ⟨h1, h2, h3, h4, h5, h6⟩ := hk
    unfold scoredStack
    simp [dictGet_setK, Ne.symm h1, Ne.symm h2, Ne.symm h3, Ne.symm h4,
      Ne.symm h5, Ne.symm h6]
  · intro k hk
    have hs := dictGet_scoredStack_derived c cost
      (calculate_schedule_variance_score c) perf comp health
    fin_cases hk
    · rw [hs.1]; rfl
    · rw [hs.2.1]; rfl
    · rw [hs.2.2.1]; rfl
    · rw [hs.2.2.2.1]; rfl
    · rw [hs.2.2.2.2.1]; rfl
    · rw [hs.2.2.2.2.2]; rfl

/-- C3: re-scoring an already scored record succeeds and reproduces
exactly the same six derived fields — the derived values are recomputed
from the raw fields only and never feed back into the scores. -/
theorem score_contract_idempotent (c : Record) (ms : List Record) (c₁ : Record)
    (h : score_contract c ms = .ok c₁) :
    ∃ c₂, score_contract c₁ ms = .ok c₂ ∧
      ∀ k ∈ derivedKeys, dictGet c₂ k = dictGet c₁ k := by
  obtain ⟨cost, perf, comp, health, hcost, hperf, hcomp, hhealth, rfl⟩ :=
    score_contract_ok c ms c₁ h
  have hsched := schedule_scoredStack c cost
    (calculate_schedule_variance_score c) perf comp health
  refine ⟨scoredStack
      (scoredStack c cost (calculate_schedule_variance_score c) perf comp health)
      cost (calculate_schedule_variance_score c) perf comp health, ?_, ?_⟩
  · rw [score_contract_unfold, cost_scoredStack, performance_scoredStack,
      compliance_scoredStack, overall_scoredStack, hcost, hperf, hcomp, hhealth,
      hsched]
    simp
  · intro k hk
    have hs1 := dictGet_scoredStack_derived
      (scoredStack c cost (calculate_schedule_variance_score c) perf comp health)
      cost (calculate_schedule_variance_score c) perf comp health
    have hs2 := dictGet_scoredStack_derived c cost
      (calculate_schedule_variance_score c) perf comp health
    fin_cases hk
    · rw [hs1.1, hs2.1]
    · rw [hs1.2.1, hs2.2.1]
    · rw [hs1.2.2.1, hs2.2.2.1]
    · rw [hs1.2.2.2.1, hs2.2.2.2.1]
    · rw [hs1.2.2.2.2.1, hs2.2.2.2.2.1]
    · rw [hs1.2.2.2.2.2, hs2.2.2.2.2.2]

/-- Concrete contract for the score_contract witnesses (percent_complete
50 makes the overall health an exact 60). -/
def frameExample : Record :=
  [("vendor_name", .str "Acme"), ("percent_complete", .num 50)]

/-- The record score_contract produces from frameExample. -/
def frameExampleScored : Record :=
  [("vendor_name", .str "Acme"), ("percent_complete", .num 50),
   ("cost_variance_score", .num 50), ("schedule_variance_score", .num 50),
   ("performance_score", .num 50), ("compliance_score", .num 100),
   ("overall_health_score", .num 60), ("risk_level", .str "Medium")]

theorem frameExample_cost : calculate_cost_variance_score frameExample = .ok 50 := by
  simp [calculate_cost_variance_score, getNum0, getD, dictGet, frameExample,
    toNumE, Value.orElse, Value.truthy]

theorem frameExample_sched : calculate_schedule_variance_score frameExample = 50 := by
  simp [calculate_schedule_variance_score, schedule_variance_from, getV, dictGet,
    frameExample, Value.truthy]

theorem frameExample_perf : calculate_performance_score frameExample [] = .ok 50 := by
  simp [calculate_performance_score, getNum0, getD, dictGet, frameExample,
    toNumE, Value.orElse, Value.truthy]
  norm_num

theorem frameExample_comp : calculate_compliance_score frameExample = .ok 100 := by
  simp [calculate_compliance_score, getV, dictGet, frameExample, Value.truthy]

theorem frameExample_health : calculate_overall_health frameExample [] = .ok 60 := by
  have hfl : ⌊(60 : ℚ) * 10⌋ = 600 := by
    rw [show ((60 : ℚ) * 10) = ((600 : ℤ) : ℚ) by norm_num, Int.floor_intCast]
  have hr : round1 (60 : ℚ) = 60 := by
    norm_num [round1, roundHalfEven, hfl]
  simp [calculate_overall_health, frameExample_cost, frameExample_sched,
    frameExample_perf, frameExample_comp, health_weights, dictGet]
  norm_num [hr]

theorem frameExample_scored : score_contract frameExample [] = .ok frameExampleScored := by
  rw [score_contract_unfold, frameExample_cost, frameExample_perf,
    frameExample_comp, frameExample_health]
  simp only [except_ok_bind, except_pure_eq, frameExample_sched]
  simp [scoredStack, setK, frameExample, frameExampleScored,
    determine_risk_level, risk_thresholds, dictGet]
  norm_num

/-- Witness for C10 at a concrete contract. -/
theorem score_contract_frame_witness :
    score_contract frameExample [] = .ok frameExampleScored ∧
    dictGet frameExampleScored "vendor_name" = dictGet frameExample "vendor_name" ∧
    (dictGet frameExampleScored "risk_level").isSome := by
  refine ⟨frameExample_scored, ?_, ?_⟩
  · exact (score_contract_frame frameExample [] frameExampleScored
      frameExample_scored).1 "vendor_name" (by simp [derivedKeys])
  · exact (score_contract_frame frameExample [] frameExampleScored
      frameExample_scored).2 "risk_level" (by simp [derivedKeys])

/-- Witness for C3 at a concrete contract. -/
theorem score_contract_idempotent_witness :
    score_contract frameExample [] = .ok frameExampleScored ∧
    ∃ c₂, score_contract frameExampleScored [] = .ok c₂ ∧
      ∀ k ∈ derivedKeys, dictGet c₂ k = dictGet frameExampleScored k :=
  ⟨frameExample_scored,
   score_contract_idempotent frameExample [] frameExampleScored frameExample_scored⟩

/-!  Claim C5: generate_alerts output ordering. -/

theorem mem_insertAlert (a x : Alert) (s : List Alert) :
    a ∈ insertAlert x s ↔ a = x ∨ a ∈ s := by
  induction s with
  | nil => simp [insertAlert]
  | cons y ys ih =>
      by_cases h : severityRank x ≤ severityRank y
      · simp [insertAlert, h]
      · simp [insertAlert, h, ih]
        tauto

theorem mem_sortAlerts (a : Alert) (l : List Alert) :
    a ∈ sortAlerts l ↔ a ∈ l := by
  induction l with
  | nil => simp [sortAlerts]
  | cons x xs ih => simp [sortAlerts, mem_insertAlert, ih]

theorem insertAlert_pairwise (x : Alert) (s : List Alert)
    (hs : s.Pairwise (fun a b => severityRank a ≤ severityRank b)) :
    (insertAlert x s).Pairwise (fun a b => severityRank a ≤ severityRank b) := by
  induction s with
  | nil => simp [insertAlert]
  | cons y ys ih =>
      rcases List.pairwise_cons.mp hs with ⟨hy, hys⟩
      by_cases h : severityRank x ≤ severityRank y
      · rw [insertAlert, if_pos h]
        refine List.pairwise_cons.mpr ⟨?_, hs⟩
        intro b hb
        rcases List.mem_cons.mp hb with rfl | hb
        · exact h
        · exact le_trans h (hy _ hb)
      · rw [insertAlert, if_neg h]
        refine List.pairwise_cons.mpr ⟨?_, ih hys⟩
        intro b hb
        rcases (mem_insertAlert b x ys).mp hb with rfl | hb
        · exact le_of_not_le h
        · exact hy _ hb

theorem sortAlerts_pairwise (l : List Alert) :
    (sortAlerts l).Pairwise (fun a b => severityRank a ≤ severityRank b) := by
  induction l with
  | nil => simp [sortAlerts]
  | cons x xs ih => exact insertAlert_pairwise x _ ih

theorem insertAlert_filter_eq (x : Alert) (s : List Alert) (r : ℤ)
    (hx : severityRank x = r) :
    (insertAlert x s).filter (fun a => severityRank a == r) =
      x :: s.filter (fun a => severityRank a == r) := by
  induction s with
  | nil => simp [insertAlert, hx]
  | cons y ys ih =>
      by_cases h : severityRank x ≤ severityRank y
      · rw [insertAlert, if_pos h]
        simp [List.filter_cons, hx]
      · have hy : severityRank y ≠ r := by
          intro hyr
          exact h (by rw [hx, ← hyr])
        rw [insertAlert, if_neg h]
        simp [List.filter_cons, hy, ih]

theorem insertAlert_filter_ne (x : Alert) (s : List Alert) (r : ℤ)
    (hx : severityRank x ≠ r) :
    (insertAlert x s).filter (fun a => severityRank a == r) =
      s.filter (fun a => severityRank a == r) := by
  induction s with
  | nil => simp [insertAlert, hx]
  | cons y ys ih =>
      by_cases h : severityRank x ≤ severityRank y
      · rw [insertAlert, if_pos h]
        simp [List.filter_cons, hx]
      · rw [insertAlert, if_neg h]
        simp [List.filter_cons, ih]

theorem sortAlerts_filter (l : List Alert) (r : ℤ) :
    (sortAlerts l).filter (fun a => severityRank a == r) =
      l.filter (fun a => severityRank a == r) := by
  induction l with
  | nil => simp [sortAlerts]
  | cons x xs ih =>
      by_cases hx : severityRank x = r
      · rw [sortAlerts, insertAlert_filter_eq x _ r hx, ih]
        simp [List.filter_cons, hx]
      · rw [sortAlerts, insertAlert_filter_ne x _ r hx, ih]
        simp [List.filter_cons, hx]

/-- C5: generate_alerts returns the collected alerts sorted ascending by
severity rank (Critical 0, High 1, Medium 2, Low 3, anything else 4), and
the sort is stable: within each rank the collection order (contracts in
iteration order, and rules in table order within one contract) is kept. -/
theorem generate_alerts_sorted_stable (now : ℚ) (contracts : List Record) :
    (generate_alerts now contracts).Pairwise
      (fun a b => severityRank a ≤ severityRank b) ∧
    ∀ r : ℤ, (generate_alerts now contracts).filter (fun a => severityRank a == r) =
      (collect_alerts now contracts).filter (fun a => severityRank a == r) :=
  ⟨sortAlerts_pairwise _, fun r => sortAlerts_filter _ r⟩

/-!  Claim C6: fault isolation in generate_alerts. -/

theorem alert_option_eq (now : ℚ) (rule : AlertRule) (c : Record) (a : Alert) :
    (match rule.condition c with
     | .ok true => some (mkAlert now c rule)
     | .ok false => none
     | .error _ => none) = some a ↔
    rule.condition c = .ok true ∧ a = mkAlert now c rule := by
  cases hc : rule.condition c with
  | ok b => cases b <;> simp [eq_comm]
  | error e => simp

/-- C6: a contract on which no rule evaluates to `ok true` (in particular
one on which rule predicates raise) contributes nothing and does not
disturb the alerts of the other contracts; and an alert is emitted
exactly for the rule/contract pairs whose predicate evaluates to `True`
without raising. -/
theorem generate_alerts_fault_isolation (now : ℚ) (pre post : List Record)
    (bad : Record)
    (h : ∀ rule ∈ alert_rules now, rule.condition bad ≠ Except.ok true) :
    generate_alerts now (pre ++ bad :: post) = generate_alerts now (pre ++ post) ∧
    ∀ (contracts : List Record) (a : Alert),
      a ∈ generate_alerts now contracts ↔
        ∃ c ∈ contracts, ∃ rule ∈ alert_rules now,
          rule.condition c = Except.ok true ∧ a = mkAlert now c rule := by
  constructor
  · have hbad : (alert_rules now).filterMap (fun rule =>
        match rule.condition bad with
        | .ok true => some (mkAlert now bad rule)
        | .ok false => none
        | .error _ => none) = [] := by
      rw [List.filterMap_eq_nil_iff]
      intro rule hr
      cases hc : rule.condition bad with
      | ok b =>
          cases b
          · rfl
          · exact absurd hc (h rule hr)
      | error e => rfl
    unfold generate_alerts collect_alerts
    rw [List.flatMap_append, List.flatMap_append, List.flatMap_cons, hbad]
    simp
  · intro contracts a
    rw [generate_alerts, mem_sortAlerts]
    unfold collect_alerts
    rw [List.mem_flatMap]
    constructor
    · rintro ⟨c, hc, ha⟩
      rw [List.mem_filterMap] at ha
      obtain ⟨rule, hrule, hsome⟩ := ha
      obtain ⟨hcond, haeq⟩ := (alert_option_eq now rule c a).mp hsome
      exact ⟨c, hc, rule, hrule, hcond, haeq⟩
    · rintro ⟨c, hc, rule, hrule, hcond, haeq⟩
      refine ⟨c, hc, ?_⟩
      rw [List.mem_filterMap]
      exact ⟨rule, hrule, (alert_option_eq now rule c a).mpr ⟨hcond, haeq⟩⟩

/-- Malformed contract for the C6 witness: its original_amount is a
string, so both cost-overrun predicates raise a TypeError. -/
def badContract : Record :=
  [("original_amount", .str "not-a-number"), ("current_amount", .num 1)]

/-- Healthy neighbour contract for the C6 witness. -/
def changeOrderContract : Record := [("change_order_count", .num 5)]

theorem badContract_cost (a b : ℚ) :
    cost_overrun badContract a b = .error "TypeError" := by
  simp [cost_overrun, getNum0, getD, dictGet, toNumE, Value.orElse, Value.truthy,
    badContract]

theorem badContract_no_rule_fires :
    ∀ rule ∈ alert_rules 0, rule.condition badContract ≠ Except.ok true := by
  have hd : decide ((100 : ℚ) < 50) = false := by
    simp only [decide_eq_false_iff_not]
    norm_num
  have hd2 : decide ((3 : ℚ) ≤ 0) = false := by
    simp only [decide_eq_false_iff_not]
    norm_num
  intro rule hr
  fin_cases hr
  · simp [badContract_cost]
  · simp [badContract_cost]
  · simp [schedule_delay, getV, dictGet, Value.truthy, badContract]
  · simp [schedule_delay, getV, dictGet, Value.truthy, badContract]
  · simp [expiring_soon, getV, dictGet, Value.truthy, Value.orElse, badContract]
  · simp [getV, dictGet, Value.truthy, badContract]
  · simp [getD, dictGet, toNumE, Value.orElse, Value.truthy, badContract, hd]
  · simp [getD, dictGet, toNumE, Value.orElse, Value.truthy, badContract, hd2]
  · simp [no_recent_activity, getV, dictGet, Value.truthy, badContract]

/-- Witness for C6: dropping the malformed contract (every rule on it
raises or is false) from the batch leaves the generated alerts unchanged. -/
theorem generate_alerts_fault_isolation_witness :
    (∀ rule ∈ alert_rules 0, rule.condition badContract ≠ Except.ok true) ∧
    generate_alerts 0 ([changeOrderContract] ++ badContract :: []) =
      generate_alerts 0 ([changeOrderContract] ++ []) :=
  ⟨badContract_no_rule_fires,
   (generate_alerts_fault_isolation 0 [changeOrderContract] [] badContract
     badContract_no_rule_fires).1⟩
